import Mathlib

/-!
Shallow embedding of the device-session and slave-address-discovery engine of
the SensorApp repository (`src/sensorapp/models/app_state.py`).

Each operation of `AppState` is translated into a Lean function that returns
the trace of atomic steps the Python code performs: lock acquisitions and
releases, reads and clears of the shared client handle, cancellation-flag
checks, driver I/O calls, queued notifications (events), joins, and logging.
Events are recovered from a trace by projection.  Concurrency enters through
scenario records: every value that another thread could change between two
program points of the operation (the handle, the cancel flag, the outcome of
a driver call) is a separate scenario field, read exactly where the source
reads it.

Payloads that the session logic never inspects (measurement dictionaries,
exception messages) are modelled as opaque `Nat` tags; slave ids are `Int`
because `try_current_slave_id` returns `-1` for a negative probe.
-/

namespace SensorApp

/-- Events queued through `AppState._queue_notify` / `notify`.  Constructor
names are the `event_type` strings of the source.  The Python code emits
`fetching_slave_id` both without a payload (app_state.py line 72) and with a
`slave_id` kwarg (lines 115-117); the payload is therefore an `Option Nat`. -/
inductive Ev
  | verifying_current_id (slave_id : Int)
  | slave_id_valid (slave_id : Int)
  | slave_id_invalid (slave_id : Int)
  | current_id_valid (slave_id : Int)
  | reboot_required
  | fetching_slave_id (slave_id : Option Nat)
  | slave_id_fetched (slave_id : Int)
  | slave_id_fetch_cancelled
  | slave_id_fetch_error
  | sensor_test_success (data : Nat)
  | sensor_test_failure (msg : Nat)
  | sensor_test_cancelled
  deriving DecidableEq

/-- One atomic step of an `AppState` operation. -/
inductive Step
  | clearCancel                                -- `self._cancel_X.clear()`
  | checkCancel (value : Bool)                 -- `self._cancel_X.is_set()`
  | readHandle (present : Bool)                -- read of `self._client`
  | clearHandle                                -- `self._client = None`
  | acquire                                    -- enter `with self._client_lock:`
  | release                                    -- leave `with self._client_lock:`
  | ioCall                                     -- a blocking driver I/O call
  | emit (e : Ev)                              -- `_queue_notify` / `notify`
  | print                                      -- `print(...)` logging
  | warn                                       -- a warning or error-log print
  | sleep                                      -- `time.sleep(1)`
  | setCancelFetch                             -- `self._cancel_fetch.set()`
  | setCancelTest                              -- `self._cancel_test.set()`
  | joinFetch (timeout : Nat) (timedOut : Bool)  -- `self._fetch_thread.join(...)`
  | joinTest (timeout : Nat) (timedOut : Bool)   -- `self._test_thread.join(...)`
  | closeCall (ok : Bool)                      -- `old_client.disconnect()`
  | raiseEsc                                   -- an exception escapes the function
  deriving DecidableEq

/-- Outcome of a driver read (`sensor.read_sensor`): a measurement dict,
a `ModbusException`, or an OS-level error (`OSError` and similar). -/
inductive ReadRes
  | ok (data : Nat)
  | modbus (msg : Nat)
  | os (msg : Nat)
  deriving DecidableEq

/-- Outcome of one probe, `sensor.try_current_slave_id(client, slave_id)`.
The sensor library catches `ModbusException` internally and returns `-1`,
so a protocol-level negative response is `ok (-1)`; an `OSError` propagates
to the caller and is modelled as `os`. -/
inductive ProbeRes
  | ok (id : Int)
  | os (msg : Nat)
  deriving DecidableEq

/-- The events of a trace, in emission order. -/
def evsOf (tr : List Step) : List Ev :=
  tr.filterMap fun s => match s with | Step.emit e => some e | _ => none

/-- Number of driver I/O calls in a trace. -/
def ioCount (tr : List Step) : Nat :=
  tr.countP fun s => match s with | Step.ioCall => true | _ => false

/-- Annotate each step with the lock-nesting depth at which it executes
(the `acquire` itself at the outer depth, steps inside the block at
depth + 1, the `release` back at the outer depth). -/
def depthAnnotate : Nat → List Step → List (Nat × Step)
  | _, [] => []
  | d, Step.acquire :: r => (d, Step.acquire) :: depthAnnotate (d + 1) r
  | d, Step.release :: r => (d - 1, Step.release) :: depthAnnotate (d - 1) r
  | d, s :: r => (d, s) :: depthAnnotate d r

/-- Is some driver I/O call executed while the lock is held? -/
def ioWhileLocked (tr : List Step) : Bool :=
  (depthAnnotate 0 tr).any fun p =>
    (match p.2 with | Step.ioCall => true | _ => false) && decide (0 < p.1)

/-- Do the critical sections of a trace contain nothing but reads or clears
of the handle reference? -/
def lockedOnlyHandleOps (tr : List Step) : Bool :=
  (depthAnnotate 0 tr).all fun p =>
    decide (p.1 = 0) ||
      (match p.2 with
       | Step.readHandle _ => true
       | Step.clearHandle => true
       | _ => false)

/-! ## Current-address verification: `AppState.test_current_id` (lines 75-105) -/

/-- Scenario for one run of `test_current_id`: the value each shared field
has at the exact program point where the source reads it. -/
structure VerifySc where
  cancel_pre : Bool       -- `self._cancel_fetch.is_set()` at line 77
  client_top : Bool       -- `self._client is not None` at line 81
  sensor_present : Bool   -- `self._selected_sensor is not None` at line 82
  slave_id : Option Int   -- `self._slave_id` at line 83
  client_locked : Bool    -- `self._client is not None` under the lock, line 86
  cancel_locked : Bool    -- `self._cancel_fetch.is_set()` under the lock, line 86
  read : ReadRes          -- outcome of `read_sensor`, line 92

/-- Shallow embedding of `AppState.test_current_id`.  Returns the step trace
and the returned boolean; a `none` result means an uncaught exception escaped
(only `ModbusException` is caught at line 99, so an OS-level error inside
`read_sensor` propagates). -/
def test_current_id (v : VerifySc) : List Step × Option Bool :=
  if v.cancel_pre then
    ([Step.checkCancel true], some false)
  else
    match v.client_top, v.sensor_present, v.slave_id with
    | true, true, some a =>
      let pre := [Step.checkCancel false, Step.readHandle true, Step.acquire]
      if v.client_locked = false then
        (pre ++ [Step.readHandle false, Step.emit (Ev.slave_id_invalid a),
                 Step.release], some false)
      else if v.cancel_locked then
        (pre ++ [Step.readHandle true, Step.checkCancel true,
                 Step.emit (Ev.slave_id_invalid a), Step.release], some false)
      else
        match v.read with
        | ReadRes.ok _ =>
          (pre ++ [Step.readHandle true, Step.checkCancel false, Step.ioCall,
                   Step.emit (Ev.slave_id_valid a), Step.release], some true)
        | ReadRes.modbus _ =>
          (pre ++ [Step.readHandle true, Step.checkCancel false, Step.ioCall,
                   Step.emit (Ev.slave_id_invalid a), Step.print, Step.release],
           some false)
        | ReadRes.os _ =>
          (pre ++ [Step.readHandle true, Step.checkCancel false, Step.ioCall,
                   Step.release, Step.raiseEsc], none)
    | ct, _, _ => ([Step.checkCancel false, Step.readHandle ct], some false)

/-! ## Address scan: `AppState.fetch_sensor_id` (lines 107-135) -/

/-- Scenario for one run of `fetch_sensor_id`.  The probe outcome and the
cancel-flag value are indexed by the candidate address `s_id` of the
iteration in which the source reads them.  The handle is read once at line
109; the loop body never re-checks it (a disconnect race there would surface
as an attribute error, outside the scenarios of these claims). -/
structure ScanSc where
  client_top : Bool        -- `self._client is not None` at line 109
  sensor_present : Bool    -- `self._selected_sensor is not None` at line 109
  probe : Nat → ProbeRes   -- `try_current_slave_id(...)` at address `s_id`
  cancel : Nat → Bool      -- `self._cancel_fetch.is_set()` at iteration `s_id`

/-- The scan loop body, lines 111-134: `for s_id in range(0, 255)` with
`n` iterations remaining and `s_id` the next candidate.  Fuel 0 is loop
exhaustion (line 135). -/
def scanLoop (probe : Nat → ProbeRes) (cancel : Nat → Bool) :
    Nat → Nat → List Step
  | 0, _ => [Step.emit Ev.slave_id_fetch_error]
  | n + 1, s_id =>
    if cancel s_id then
      [Step.checkCancel true, Step.emit Ev.slave_id_fetch_cancelled]
    else
      Step.checkCancel false :: Step.emit (Ev.fetching_slave_id (some s_id)) ::
      Step.acquire :: Step.readHandle true ::
      match probe s_id with
      | ProbeRes.os _ =>
        -- the `except OSError` handler (lines 123-128) runs inside the lock
        [Step.ioCall, Step.print, Step.emit Ev.slave_id_fetch_cancelled,
         Step.release]
      | ProbeRes.ok r =>
        Step.ioCall :: Step.release ::
        (if r = -1 then scanLoop probe cancel n (s_id + 1)
         else [Step.emit (Ev.slave_id_fetched r)])

/-- Shallow embedding of `AppState.fetch_sensor_id`. -/
def fetch_sensor_id (sc : ScanSc) : List Step :=
  if sc.client_top ∧ sc.sensor_present then
    Step.readHandle true :: scanLoop sc.probe sc.cancel 255 0
  else
    [Step.readHandle sc.client_top]

/-! ## Discovery worker: `AppState.fetch_slave_id_thread` (lines 57-73) -/

/-- Shallow embedding of `AppState.fetch_slave_id_thread`: clear the cancel
flag; if a current address is recorded, verify it first; then the
`restart_missing` gate; then the scan. -/
def fetch_slave_id_thread (sid : Option Int) (restart_missing : Bool)
    (v : VerifySc) (s : ScanSc) : List Step :=
  let rest : List Step :=
    if restart_missing then
      [Step.emit Ev.reboot_required]
    else
      Step.emit (Ev.fetching_slave_id none) :: fetch_sensor_id s
  Step.clearCancel ::
  match sid with
  | some a =>
    Step.emit (Ev.verifying_current_id a) ::
    (let r := test_current_id v
     match r.2 with
     | some true => r.1 ++ [Step.emit (Ev.current_id_valid a)]
     | some false => r.1 ++ rest
     | none => r.1)    -- the exception escapes the whole worker
  | none => rest

/-! ## Continuous test loops: `AppState.test_sensor_thread` (lines 137-173)
and `AppState.test_sensor_thread_sdi12` (lines 175-216) -/

/-- Outcome of one loop iteration: continue polling, return from the worker,
or let an uncaught exception propagate out of the loop. -/
inductive IterOut
  | cont
  | stop
  | raise
  deriving DecidableEq

/-- Scenario for one iteration of the register-poll test loop. -/
structure TestIter where
  cancel_top : Bool        -- `self._cancel_test.is_set()` in the while condition
  client_snap : Bool       -- `self._client is not None` in the locked snapshot
  sensor_snap : Bool       -- `self._selected_sensor is not None` in the snapshot
  slave_snap : Option Int  -- `self._slave_id` in the snapshot
  read : ReadRes           -- outcome of `read_sensor`, line 153
  cancel_after_read : Bool -- `self._cancel_test.is_set()` at line 157 or 163

/-- One iteration of `test_sensor_thread` (lines 141-173).  The snapshot of
`(client, sensor, slave_id)` is taken under the lock; the read executes
outside the lock; only `ModbusException` is caught (line 162), so an
OS-level error during the read escapes the loop. -/
def test_iter (it : TestIter) : List Step × IterOut :=
  if it.cancel_top then
    ([Step.checkCancel true], IterOut.stop)
  else
    let snap := [Step.checkCancel false, Step.acquire,
                 Step.readHandle it.client_snap, Step.release]
    if it.client_snap = false ∨ it.sensor_snap = false ∨ it.slave_snap = none then
      (snap ++ [Step.emit Ev.sensor_test_cancelled], IterOut.stop)
    else
      match it.read with
      | ReadRes.ok d =>
        if it.cancel_after_read then
          (snap ++ [Step.ioCall, Step.checkCancel true,
                    Step.emit Ev.sensor_test_cancelled], IterOut.stop)
        else
          (snap ++ [Step.ioCall, Step.checkCancel false,
                    Step.emit (Ev.sensor_test_success d), Step.sleep],
           IterOut.cont)
      | ReadRes.modbus m =>
        if it.cancel_after_read then
          (snap ++ [Step.ioCall, Step.checkCancel true,
                    Step.emit Ev.sensor_test_cancelled], IterOut.stop)
        else
          (snap ++ [Step.ioCall, Step.checkCancel false, Step.print,
                    Step.emit (Ev.sensor_test_failure m), Step.sleep],
           IterOut.cont)
      | ReadRes.os _ =>
        (snap ++ [Step.ioCall, Step.raiseEsc], IterOut.raise)

/-- Scenario for one iteration of the SDI-12 request-then-read test loop. -/
structure TestIterSdi where
  cancel_top : Bool
  client_snap : Bool
  sensor_snap : Bool
  slave_snap : Option Int
  request : Option Nat        -- `none` = request succeeded; `some m` = it raised
  cancel_after_request : Bool -- `self._cancel_test.is_set()` at line 194
  read : ReadRes              -- outcome of `read_sensor`, line 197
  cancel_after_read : Bool    -- `self._cancel_test.is_set()` at line 200 or 206

/-- One iteration of `test_sensor_thread_sdi12` (lines 179-216).  The
`except Exception` handler (line 205) catches every error from either
sub-step, so nothing escapes this loop. -/
def test_iter_sdi12 (it : TestIterSdi) : List Step × IterOut :=
  if it.cancel_top then
    ([Step.checkCancel true], IterOut.stop)
  else
    let snap := [Step.checkCancel false, Step.acquire,
                 Step.readHandle it.client_snap, Step.release]
    if it.client_snap = false ∨ it.sensor_snap = false ∨ it.slave_snap = none then
      (snap ++ [Step.emit Ev.sensor_test_cancelled], IterOut.stop)
    else
      match it.request with
      | some m =>
        if it.cancel_after_read then
          (snap ++ [Step.ioCall, Step.checkCancel true,
                    Step.emit Ev.sensor_test_cancelled], IterOut.stop)
        else
          (snap ++ [Step.ioCall, Step.checkCancel false, Step.print,
                    Step.emit (Ev.sensor_test_failure m), Step.sleep],
           IterOut.cont)
      | none =>
        if it.cancel_after_request then
          (snap ++ [Step.ioCall, Step.checkCancel true,
                    Step.emit Ev.sensor_test_cancelled], IterOut.stop)
        else
          match it.read with
          | ReadRes.ok d =>
            if it.cancel_after_read then
              (snap ++ [Step.ioCall, Step.checkCancel false, Step.ioCall,
                        Step.checkCancel true, Step.emit Ev.sensor_test_cancelled],
               IterOut.stop)
            else
              (snap ++ [Step.ioCall, Step.checkCancel false, Step.ioCall,
                        Step.checkCancel false, Step.emit (Ev.sensor_test_success d),
                        Step.sleep], IterOut.cont)
          | ReadRes.modbus m =>
            if it.cancel_after_read then
              (snap ++ [Step.ioCall, Step.checkCancel false, Step.ioCall,
                        Step.checkCancel true, Step.emit Ev.sensor_test_cancelled],
               IterOut.stop)
            else
              (snap ++ [Step.ioCall, Step.checkCancel false, Step.ioCall,
                        Step.checkCancel false, Step.print,
                        Step.emit (Ev.sensor_test_failure m), Step.sleep],
               IterOut.cont)
          | ReadRes.os m =>
            if it.cancel_after_read then
              (snap ++ [Step.ioCall, Step.checkCancel false, Step.ioCall,
                        Step.checkCancel true, Step.emit Ev.sensor_test_cancelled],
               IterOut.stop)
            else
              (snap ++ [Step.ioCall, Step.checkCancel false, Step.ioCall,
                        Step.checkCancel false, Step.print,
                        Step.emit (Ev.sensor_test_failure m), Step.sleep],
               IterOut.cont)

/-- The while loop of `test_sensor_thread`, one scenario per iteration and a
fuel bound; running out of fuel means the loop is still polling. -/
def test_loop (iters : Nat → TestIter) : Nat → Nat → List Step × IterOut
  | 0, _ => ([], IterOut.cont)
  | n + 1, i =>
    let r := test_iter (iters i)
    match r.2 with
    | IterOut.cont =>
      let rest := test_loop iters n (i + 1)
      (r.1 ++ rest.1, rest.2)
    | o => (r.1, o)

/-- Shallow embedding of `AppState.test_sensor_thread` (lines 137-173). -/
def test_sensor_thread (client_top sensor_top : Bool) (iters : Nat → TestIter)
    (fuel : Nat) : List Step × IterOut :=
  if client_top ∧ sensor_top then
    let r := test_loop iters fuel 0
    (Step.clearCancel :: Step.readHandle client_top :: r.1, r.2)
  else
    ([Step.clearCancel, Step.readHandle client_top], IterOut.stop)

/-- The while loop of `test_sensor_thread_sdi12`. -/
def test_loop_sdi12 (iters : Nat → TestIterSdi) : Nat → Nat → List Step × IterOut
  | 0, _ => ([], IterOut.cont)
  | n + 1, i =>
    let r := test_iter_sdi12 (iters i)
    match r.2 with
    | IterOut.cont =>
      let rest := test_loop_sdi12 iters n (i + 1)
      (r.1 ++ rest.1, rest.2)
    | o => (r.1, o)

/-- Shallow embedding of `AppState.test_sensor_thread_sdi12` (lines 175-216). -/
def test_sensor_thread_sdi12 (client_top sensor_top : Bool)
    (iters : Nat → TestIterSdi) (fuel : Nat) : List Step × IterOut :=
  if client_top ∧ sensor_top then
    let r := test_loop_sdi12 iters fuel 0
    (Step.clearCancel :: Step.readHandle client_top :: r.1, r.2)
  else
    ([Step.clearCancel, Step.readHandle client_top], IterOut.stop)

/-! ## Teardown: `AppState.disconnect_modbus_client` (lines 296-327) -/

/-- Scenario for one run of `disconnect_modbus_client`.  `_fetch_thread` is
set by `connect_modbus_client` before any Modbus disconnect is reachable, so
it is modelled as present (a `None` value would raise at line 303). -/
structure DisconnectSc where
  fetch_alive : Bool     -- `self._fetch_thread.is_alive()` at line 303
  fetch_timeout : Bool   -- still alive after the join, line 306
  test_some : Bool       -- `self._test_thread is not None` at line 309
  test_alive : Bool      -- `self._test_thread.is_alive()` at line 309
  test_timeout : Bool    -- still alive after the join, line 312
  client_present : Bool  -- `old_client is not None` at line 321
  close_ok : Bool        -- `old_client.disconnect()` did not raise `OSError`

/-- Shallow embedding of `AppState.disconnect_modbus_client`. -/
def disconnect_modbus_client (sc : DisconnectSc) : List Step :=
  [Step.setCancelFetch, Step.setCancelTest]
  ++ (if sc.fetch_alive then
        [Step.print, Step.joinFetch 2 sc.fetch_timeout]
        ++ (if sc.fetch_timeout then [Step.warn] else [])
      else [])
  ++ (if sc.test_some ∧ sc.test_alive then
        [Step.print, Step.joinTest 2 sc.test_timeout]
        ++ (if sc.test_timeout then [Step.warn] else [])
      else [])
  ++ [Step.acquire, Step.readHandle sc.client_present, Step.clearHandle]
  ++ (if sc.client_present then
        [Step.print, Step.closeCall sc.close_ok]
        ++ (if sc.close_ok then [Step.print] else [Step.warn])
      else [])
  ++ [Step.release]

/-- Is a `closeCall` reached before any `clearHandle` in the trace? -/
def closeBeforeClear : List Step → Bool
  | [] => false
  | Step.closeCall _ :: _ => true
  | Step.clearHandle :: _ => false
  | _ :: r => closeBeforeClear r

/-- Does every join in the trace carry a 2 time-unit timeout? -/
def joinsBoundedBy2 (tr : List Step) : Bool :=
  tr.all fun s =>
    match s with
    | Step.joinFetch t _ => t == 2
    | Step.joinTest t _ => t == 2
    | _ => true

/-- Do the handle clear and the physical close both execute while the lock
is held? -/
def clearAndCloseLocked (tr : List Step) : Bool :=
  (depthAnnotate 0 tr).all fun p =>
    match p.2 with
    | Step.clearHandle => decide (0 < p.1)
    | Step.closeCall _ => decide (0 < p.1)
    | _ => true

/-! ## Projection lemmas -/

@[simp] lemma evsOf_nil : evsOf [] = [] := rfl

@[simp] lemma evsOf_append (a b : List Step) :
    evsOf (a ++ b) = evsOf a ++ evsOf b := List.filterMap_append ..

@[simp] lemma evsOf_emit (e : Ev) (tr : List Step) :
    evsOf (Step.emit e :: tr) = e :: evsOf tr := rfl

@[simp] lemma evsOf_clearCancel (tr : List Step) :
    evsOf (Step.clearCancel :: tr) = evsOf tr := rfl

@[simp] lemma evsOf_checkCancel (b : Bool) (tr : List Step) :
    evsOf (Step.checkCancel b :: tr) = evsOf tr := rfl

@[simp] lemma evsOf_readHandle (b : Bool) (tr : List Step) :
    evsOf (Step.readHandle b :: tr) = evsOf tr := rfl

@[simp] lemma evsOf_clearHandle (tr : List Step) :
    evsOf (Step.clearHandle :: tr) = evsOf tr := rfl

@[simp] lemma evsOf_acquire (tr : List Step) :
    evsOf (Step.acquire :: tr) = evsOf tr := rfl

@[simp] lemma evsOf_release (tr : List Step) :
    evsOf (Step.release :: tr) = evsOf tr := rfl

@[simp] lemma evsOf_ioCall (tr : List Step) :
    evsOf (Step.ioCall :: tr) = evsOf tr := rfl

@[simp] lemma evsOf_print (tr : List Step) :
    evsOf (Step.print :: tr) = evsOf tr := rfl

@[simp] lemma evsOf_warn (tr : List Step) :
    evsOf (Step.warn :: tr) = evsOf tr := rfl

@[simp] lemma evsOf_sleep (tr : List Step) :
    evsOf (Step.sleep :: tr) = evsOf tr := rfl

@[simp] lemma evsOf_raiseEsc (tr : List Step) :
    evsOf (Step.raiseEsc :: tr) = evsOf tr := rfl

@[simp] lemma ioCount_nil : ioCount [] = 0 := rfl

@[simp] lemma ioCount_append (a b : List Step) :
    ioCount (a ++ b) = ioCount a + ioCount b := List.countP_append ..

@[simp] lemma ioCount_ioCall (tr : List Step) :
    ioCount (Step.ioCall :: tr) = ioCount tr + 1 := List.countP_cons_of_pos _ _ rfl

@[simp] lemma ioCount_emit (e : Ev) (tr : List Step) :
    ioCount (Step.emit e :: tr) = ioCount tr := List.countP_cons_of_neg _ _ (by simp)

@[simp] lemma ioCount_clearCancel (tr : List Step) :
    ioCount (Step.clearCancel :: tr) = ioCount tr := List.countP_cons_of_neg _ _ (by simp)

@[simp] lemma ioCount_checkCancel (b : Bool) (tr : List Step) :
    ioCount (Step.checkCancel b :: tr) = ioCount tr := List.countP_cons_of_neg _ _ (by simp)

@[simp] lemma ioCount_readHandle (b : Bool) (tr : List Step) :
    ioCount (Step.readHandle b :: tr) = ioCount tr := List.countP_cons_of_neg _ _ (by simp)

@[simp] lemma ioCount_acquire (tr : List Step) :
    ioCount (Step.acquire :: tr) = ioCount tr := List.countP_cons_of_neg _ _ (by simp)

@[simp] lemma ioCount_release (tr : List Step) :
    ioCount (Step.release :: tr) = ioCount tr := List.countP_cons_of_neg _ _ (by simp)

@[simp] lemma ioCount_print (tr : List Step) :
    ioCount (Step.print :: tr) = ioCount tr := List.countP_cons_of_neg _ _ (by simp)

@[simp] lemma ioCount_sleep (tr : List Step) :
    ioCount (Step.sleep :: tr) = ioCount tr := List.countP_cons_of_neg _ _ (by simp)

@[simp] lemma ioCount_raiseEsc (tr : List Step) :
    ioCount (Step.raiseEsc :: tr) = ioCount tr := List.countP_cons_of_neg _ _ (by simp)

/-! ## One-step unfolding lemmas for the scan loop -/

lemma scanLoop_zero (probe : Nat → ProbeRes) (cancel : Nat → Bool) (s : Nat) :
    scanLoop probe cancel 0 s = [Step.emit Ev.slave_id_fetch_error] := rfl

lemma scanLoop_cancelled (probe : Nat → ProbeRes) (cancel : Nat → Bool)
    (n s : Nat) (h : cancel s = true) :
    scanLoop probe cancel (n + 1) s =
      [Step.checkCancel true, Step.emit Ev.slave_id_fetch_cancelled] := by
  rw [scanLoop, if_pos h]

lemma scanLoop_miss (probe : Nat → ProbeRes) (cancel : Nat → Bool)
    (n s : Nat) (h : cancel s = false) (h0 : probe s = ProbeRes.ok (-1)) :
    scanLoop probe cancel (n + 1) s =
      Step.checkCancel false :: Step.emit (Ev.fetching_slave_id (some s)) ::
      Step.acquire :: Step.readHandle true :: Step.ioCall :: Step.release ::
      scanLoop probe cancel n (s + 1) := by
  rw [scanLoop, if_neg (by simp [h]), h0]
  simp

lemma scanLoop_hit (probe : Nat → ProbeRes) (cancel : Nat → Bool)
    (n s : Nat) (r : Int) (h : cancel s = false) (h0 : probe s = ProbeRes.ok r)
    (hr : r ≠ -1) :
    scanLoop probe cancel (n + 1) s =
      [Step.checkCancel false, Step.emit (Ev.fetching_slave_id (some s)),
       Step.acquire, Step.readHandle true, Step.ioCall, Step.release,
       Step.emit (Ev.slave_id_fetched r)] := by
  rw [scanLoop, if_neg (by simp [h]), h0]
  simp [hr]

lemma scanLoop_os (probe : Nat → ProbeRes) (cancel : Nat → Bool)
    (n s : Nat) (m : Nat) (h : cancel s = false) (h0 : probe s = ProbeRes.os m) :
    scanLoop probe cancel (n + 1) s =
      [Step.checkCancel false, Step.emit (Ev.fetching_slave_id (some s)),
       Step.acquire, Step.readHandle true, Step.ioCall, Step.print,
       Step.emit Ev.slave_id_fetch_cancelled, Step.release] := by
  rw [scanLoop, if_neg (by simp [h]), h0]

/-- Peeling the first progress event off a block of ascending progress
events. -/
lemma scanning_range_shift (k s : Nat) :
    (List.range (k + 1)).map (fun i => Ev.fetching_slave_id (some (s + i))) =
      Ev.fetching_slave_id (some s) ::
        (List.range k).map fun i => Ev.fetching_slave_id (some (s + 1 + i)) := by
  rw [List.range_succ_eq_map, List.map_cons, List.map_map]
  refine congrArg₂ List.cons (by simp) (List.map_congr_left ?_)
  intro a ha
  show Ev.fetching_slave_id (some (s + (a + 1))) =
    Ev.fetching_slave_id (some (s + 1 + a))
  exact congrArg (fun x => Ev.fetching_slave_id (some x)) (by omega)

/-! ## Structure lemmas about the scan loop -/

/-- A scan that finds its first positive probe at offset `k` emits the
progress events for offsets `0..k` in ascending order followed by the single
fetched event, and probes exactly `k + 1` addresses. -/
lemma scanLoop_found (probe : Nat → ProbeRes) (cancel : Nat → Bool)
    (hc : ∀ i, cancel i = false) :
    ∀ k n s r, k < n → (∀ j, j < k → probe (s + j) = ProbeRes.ok (-1)) →
    probe (s + k) = ProbeRes.ok r → r ≠ -1 →
    evsOf (scanLoop probe cancel n s) =
      ((List.range (k + 1)).map fun i => Ev.fetching_slave_id (some (s + i)))
        ++ [Ev.slave_id_fetched r] ∧
    ioCount (scanLoop probe cancel n s) = k + 1 := by
  intro k
  induction k with
  | zero =>
    intro n s r hkn hneg hk hr
    obtain ⟨n, rfl⟩ : ∃ m, n = m + 1 := ⟨n - 1, by omega⟩
    simp only [Nat.add_zero] at hk
    rw [scanLoop_hit probe cancel n s r (hc s) hk hr]
    exact ⟨by simp [List.range_succ], by simp⟩
  | succ k ih =>
    intro n s r hkn hneg hk hr
    obtain ⟨n, rfl⟩ : ∃ m, n = m + 1 := ⟨n - 1, by omega⟩
    have h0 : probe s = ProbeRes.ok (-1) := by simpa using hneg 0 (by omega)
    have hrest := ih n (s + 1) r (by omega)
      (fun j hj => by
        have := hneg (j + 1) (by omega)
        simpa [Nat.add_comm 1 j, Nat.add_assoc] using this)
      (by
        have he : s + 1 + k = s + (k + 1) := by omega
        rw [he]; exact hk) hr
    rw [scanLoop_miss probe cancel n s (hc s) h0]
    rw [scanning_range_shift (k + 1) s]
    constructor
    · simp only [evsOf_checkCancel, evsOf_emit, evsOf_acquire, evsOf_readHandle,
        evsOf_ioCall, evsOf_release, hrest.1, List.cons_append]
    · simp only [ioCount_checkCancel, ioCount_emit, ioCount_acquire,
        ioCount_readHandle, ioCount_ioCall, ioCount_release, hrest.2]

/-- A scan in which every probed address answers negatively emits the
progress events for all offsets below the fuel, then the single exhaustion
event, and probes exactly `fuel` addresses. -/
lemma scanLoop_exhaust (probe : Nat → ProbeRes) (cancel : Nat → Bool)
    (hc : ∀ i, cancel i = false) :
    ∀ n s, (∀ j, j < n → probe (s + j) = ProbeRes.ok (-1)) →
    evsOf (scanLoop probe cancel n s) =
      ((List.range n).map fun i => Ev.fetching_slave_id (some (s + i)))
        ++ [Ev.slave_id_fetch_error] ∧
    ioCount (scanLoop probe cancel n s) = n := by
  intro n
  induction n with
  | zero => intro s _; exact ⟨by simp [scanLoop_zero, evsOf], by simp [scanLoop_zero, ioCount]⟩
  | succ n ih =>
    intro s hneg
    have h0 : probe s = ProbeRes.ok (-1) := by simpa using hneg 0 (by omega)
    have hrest := ih (s + 1) (fun j hj => by
      have := hneg (j + 1) (by omega)
      simpa [Nat.add_comm 1 j, Nat.add_assoc] using this)
    rw [scanLoop_miss probe cancel n s (hc s) h0]
    rw [scanning_range_shift n s]
    constructor
    · simp only [evsOf_checkCancel, evsOf_emit, evsOf_acquire, evsOf_readHandle,
        evsOf_ioCall, evsOf_release, hrest.1, List.cons_append]
    · simp only [ioCount_checkCancel, ioCount_emit, ioCount_acquire,
        ioCount_readHandle, ioCount_ioCall, ioCount_release, hrest.2]

/-- A transport-level probe error at offset `k` ends the scan right there:
progress events for `0..k`, then the cancelled event, and exactly `k + 1`
probes. -/
lemma scanLoop_transport (probe : Nat → ProbeRes) (cancel : Nat → Bool)
    (hc : ∀ i, cancel i = false) :
    ∀ k n s m, k < n → (∀ j, j < k → probe (s + j) = ProbeRes.ok (-1)) →
    probe (s + k) = ProbeRes.os m →
    evsOf (scanLoop probe cancel n s) =
      ((List.range (k + 1)).map fun i => Ev.fetching_slave_id (some (s + i)))
        ++ [Ev.slave_id_fetch_cancelled] ∧
    ioCount (scanLoop probe cancel n s) = k + 1 := by
  intro k
  induction k with
  | zero =>
    intro n s m hkn hneg hk
    obtain ⟨n, rfl⟩ : ∃ m, n = m + 1 := ⟨n - 1, by omega⟩
    simp only [Nat.add_zero] at hk
    rw [scanLoop_os probe cancel n s m (hc s) hk]
    exact ⟨by simp [List.range_succ], by simp⟩
  | succ k ih =>
    intro n s m hkn hneg hk
    obtain ⟨n, rfl⟩ : ∃ m, n = m + 1 := ⟨n - 1, by omega⟩
    have h0 : probe s = ProbeRes.ok (-1) := by simpa using hneg 0 (by omega)
    have hrest := ih n (s + 1) m (by omega)
      (fun j hj => by
        have := hneg (j + 1) (by omega)
        simpa [Nat.add_comm 1 j, Nat.add_assoc] using this)
      (by
        have he : s + 1 + k = s + (k + 1) := by omega
        rw [he]; exact hk)
    rw [scanLoop_miss probe cancel n s (hc s) h0]
    rw [scanning_range_shift (k + 1) s]
    constructor
    · simp only [evsOf_checkCancel, evsOf_emit, evsOf_acquire, evsOf_readHandle,
        evsOf_ioCall, evsOf_release, hrest.1, List.cons_append]
    · simp only [ioCount_checkCancel, ioCount_emit, ioCount_acquire,
        ioCount_readHandle, ioCount_ioCall, ioCount_release, hrest.2]

/-- A progress event is only emitted after the cancellation checkpoint of
its own iteration read the flag as unset. -/
lemma scanLoop_scanning_cancel_false (probe : Nat → ProbeRes)
    (cancel : Nat → Bool) :
    ∀ n s j, Ev.fetching_slave_id (some j) ∈ evsOf (scanLoop probe cancel n s) →
    cancel j = false := by
  intro n
  induction n with
  | zero => intro s j h; simp [scanLoop_zero, evsOf] at h
  | succ n ih =>
    intro s j h
    by_cases hcs : cancel s = true
    · rw [scanLoop_cancelled probe cancel n s hcs] at h
      simp [evsOf] at h
    · have hcs0 : cancel s = false := by simpa using hcs
      rcases hp : probe s with r | m
      · by_cases hr : r = -1
        · rw [scanLoop_miss probe cancel n s hcs0 (by rw [hp, hr])] at h
          simp only [evsOf_checkCancel, evsOf_emit, evsOf_acquire,
            evsOf_readHandle, evsOf_ioCall, evsOf_release, List.mem_cons] at h
          rcases h with h | h
          · obtain rfl : j = s := by simpa using h
            exact hcs0
          · exact ih (s + 1) j h
        · rw [scanLoop_hit probe cancel n s r hcs0 hp hr] at h
          simp only [evsOf] at h
          simp at h
          obtain rfl : j = s := h
          exact hcs0
      · rw [scanLoop_os probe cancel n s m hcs0 hp] at h
        simp only [evsOf] at h
        simp at h
        obtain rfl : j = s := h
        exact hcs0

/-- Once the scan emits the cancelled event, nothing follows it. -/
lemma scanLoop_cancelled_last (probe : Nat → ProbeRes) (cancel : Nat → Bool) :
    ∀ n s l1 l2,
    evsOf (scanLoop probe cancel n s) =
      l1 ++ Ev.slave_id_fetch_cancelled :: l2 → l2 = [] := by
  intro n
  induction n with
  | zero =>
    intro s l1 l2 h
    rw [scanLoop_zero] at h
    rcases l1 with _ | ⟨x, t⟩ <;> simp_all [evsOf]
  | succ n ih =>
    intro s l1 l2 h
    by_cases hcs : cancel s = true
    · rw [scanLoop_cancelled probe cancel n s hcs] at h
      rcases l1 with _ | ⟨x, t⟩ <;> simp_all [evsOf]
    · have hcs0 : cancel s = false := by simpa using hcs
      rcases hp : probe s with r | m
      · by_cases hr : r = -1
        · rw [scanLoop_miss probe cancel n s hcs0 (by rw [hp, hr])] at h
          simp only [evsOf_checkCancel, evsOf_emit, evsOf_acquire,
            evsOf_readHandle, evsOf_ioCall, evsOf_release] at h
          rcases l1 with _ | ⟨x, t⟩
          · simp only [List.nil_append, List.cons.injEq] at h
            exact absurd h.1.symm (by simp)
          · simp only [List.cons_append, List.cons.injEq] at h
            exact ih (s + 1) t l2 h.2
        · rw [scanLoop_hit probe cancel n s r hcs0 hp hr] at h
          rcases l1 with _ | ⟨x, (_ | ⟨y, t⟩)⟩ <;> simp_all [evsOf]
      · rw [scanLoop_os probe cancel n s m hcs0 hp] at h
        rcases l1 with _ | ⟨x, (_ | ⟨y, t⟩)⟩ <;> simp_all [evsOf]

/-! ## Concrete scenarios used by witnesses and counterexamples -/

/-- A bus whose only device sits at address 255, never cancelled. -/
def busDeviceAt255 : ScanSc :=
  { client_top := true, sensor_present := true,
    probe := fun j => if j = 255 then ProbeRes.ok 255 else ProbeRes.ok (-1),
    cancel := fun _ => false }

/-- A bus with no device at any address, never cancelled. -/
def busNoDevice : ScanSc :=
  { client_top := true, sensor_present := true,
    probe := fun _ => ProbeRes.ok (-1), cancel := fun _ => false }

/-- A bus whose only device sits at address 3, never cancelled. -/
def busDeviceAt3 : ScanSc :=
  { client_top := true, sensor_present := true,
    probe := fun j => if j = 3 then ProbeRes.ok 3 else ProbeRes.ok (-1),
    cancel := fun _ => false }

/-- A bus that raises an OS-level error on the probe of address 2. -/
def busTransportAt2 : ScanSc :=
  { client_top := true, sensor_present := true,
    probe := fun j => if j = 2 then ProbeRes.os 1 else ProbeRes.ok (-1),
    cancel := fun _ => false }

/-- A verification state that is never reached in the scan-only scenarios. -/
def idleVerify : VerifySc :=
  { cancel_pre := false, client_top := true, sensor_present := true,
    slave_id := none, client_locked := true, cancel_locked := false,
    read := ReadRes.ok 0 }

/-! ## C1 -/

set_option maxRecDepth 20000 in
/-- C1 counterexample: on a bus whose only device sits at address 255 the
scan never emits the fetched event for 255 and ends in the exhaustion
event, because `for s_id in range(0, 255)` stops at address 254; the claim
says every address of [0,255] terminates in Found. -/
theorem scan_misses_address_255 :
    Ev.slave_id_fetched 255 ∉ evsOf (fetch_sensor_id busDeviceAt255)
    ∧ (evsOf (fetch_sensor_id busDeviceAt255)).getLast?
        = some Ev.slave_id_fetch_error
    ∧ Ev.fetching_slave_id (some 255) ∉ evsOf (fetch_sensor_id busDeviceAt255) := by
  decide

/-- C1 amended: for every address a in [0,254], a discovery run with no
recorded current address and no cancellation against a bus with a device
only at a emits the no-payload progress event, then Scanning events for
exactly the addresses 0..a in ascending order, then the fetched event for a,
and nothing after it. -/
theorem scan_finds_device_below_255 (a : Nat) (v : VerifySc) (s : ScanSc)
    (ha : a < 255) (hct : s.client_top = true) (hsp : s.sensor_present = true)
    (hc : ∀ i, s.cancel i = false)
    (hbelow : ∀ j, j < a → s.probe j = ProbeRes.ok (-1))
    (hat : s.probe a = ProbeRes.ok (a : Int)) :
    evsOf (fetch_slave_id_thread none false v s) =
      Ev.fetching_slave_id none ::
        (((List.range (a + 1)).map fun i => Ev.fetching_slave_id (some i))
          ++ [Ev.slave_id_fetched (a : Int)]) := by
  have hfound := scanLoop_found s.probe s.cancel hc a 255 0 (a : Int) ha
    (fun j hj => by simpa using hbelow j hj)
    (by simpa using hat) (by omega)
  show evsOf (Step.clearCancel :: Step.emit (Ev.fetching_slave_id none) ::
    fetch_sensor_id s) = _
  rw [fetch_sensor_id, if_pos ⟨hct, hsp⟩]
  simp only [evsOf_clearCancel, evsOf_emit, evsOf_readHandle]
  rw [hfound.1]
  simp only [Nat.zero_add]

/-- C1 witness: the amended claim evaluated at a = 3. -/
theorem scan_finds_device_below_255_witness :
    evsOf (fetch_slave_id_thread none false idleVerify busDeviceAt3) =
      Ev.fetching_slave_id none ::
        (((List.range 4).map fun i => Ev.fetching_slave_id (some i))
          ++ [Ev.slave_id_fetched 3]) :=
  scan_finds_device_below_255 3 idleVerify busDeviceAt3 (by omega) rfl rfl
    (fun _ => rfl)
    (fun j hj => by
      show (if j = 3 then ProbeRes.ok 3 else ProbeRes.ok (-1)) = ProbeRes.ok (-1)
      rw [if_neg (by omega)])
    rfl

/-! ## C2 -/

set_option maxRecDepth 20000 in
/-- C2 counterexample: a scan of an empty bus performs 255 probes, not the
256 the claim asserts, and never probes address 255. -/
theorem scan_probes_only_255_addresses :
    ioCount (fetch_sensor_id busNoDevice) = 255
    ∧ (255 : Nat) ≠ 256
    ∧ Ev.fetching_slave_id (some 255) ∉ evsOf (fetch_sensor_id busNoDevice) := by
  decide

/-- C2 amended: when no device responds at any probed address and
cancellation is never requested, the scan probes the 255 addresses 0..254 in
ascending order, emits exactly one exhaustion event, and terminates on it. -/
theorem scan_exhausts_addresses_0_to_254 (s : ScanSc)
    (hct : s.client_top = true) (hsp : s.sensor_present = true)
    (hc : ∀ i, s.cancel i = false)
    (hneg : ∀ j, j < 255 → s.probe j = ProbeRes.ok (-1)) :
    evsOf (fetch_sensor_id s) =
      ((List.range 255).map fun i => Ev.fetching_slave_id (some i))
        ++ [Ev.slave_id_fetch_error]
    ∧ ioCount (fetch_sensor_id s) = 255
    ∧ (evsOf (fetch_sensor_id s)).count Ev.slave_id_fetch_error = 1 := by
  have hex := scanLoop_exhaust s.probe s.cancel hc 255 0
    (fun j hj => by simpa using hneg j hj)
  have hevs : evsOf (fetch_sensor_id s) =
      ((List.range 255).map fun i => Ev.fetching_slave_id (some i))
        ++ [Ev.slave_id_fetch_error] := by
    rw [fetch_sensor_id, if_pos ⟨hct, hsp⟩]
    simp only [evsOf_readHandle]
    rw [hex.1]
    simp only [Nat.zero_add]
  refine ⟨hevs, ?_, ?_⟩
  · rw [fetch_sensor_id, if_pos ⟨hct, hsp⟩]
    simp only [ioCount_readHandle]
    exact hex.2
  · rw [hevs]
    rw [List.count_append]
    have h0 : ((List.range 255).map fun i =>
        Ev.fetching_slave_id (some i)).count Ev.slave_id_fetch_error = 0 := by
      apply List.count_eq_zero_of_not_mem
      simp
    rw [h0]
    simp

/-- C2 witness: the amended claim evaluated on the concrete empty bus. -/
theorem scan_exhausts_addresses_0_to_254_witness :
    evsOf (fetch_sensor_id busNoDevice) =
      ((List.range 255).map fun i => Ev.fetching_slave_id (some i))
        ++ [Ev.slave_id_fetch_error]
    ∧ ioCount (fetch_sensor_id busNoDevice) = 255
    ∧ (evsOf (fetch_sensor_id busNoDevice)).count Ev.slave_id_fetch_error = 1 :=
  scan_exhausts_addresses_0_to_254 busNoDevice rfl rfl (fun _ => rfl)
    (fun _ _ => rfl)

/-! ## C7 -/

/-- C7: a transport-level probe error at address k terminates the scan
immediately with the cancelled event and no further probes, while the
protocol-level negative responses at the addresses below k were not fatal
(the scan kept going through all of them). -/
theorem scan_transport_fatal_protocol_continue (s : ScanSc) (k m : Nat)
    (hct : s.client_top = true) (hsp : s.sensor_present = true)
    (hc : ∀ i, s.cancel i = false) (hk : k < 255)
    (hbelow : ∀ j, j < k → s.probe j = ProbeRes.ok (-1))
    (hos : s.probe k = ProbeRes.os m) :
    evsOf (fetch_sensor_id s) =
      ((List.range (k + 1)).map fun i => Ev.fetching_slave_id (some i))
        ++ [Ev.slave_id_fetch_cancelled]
    ∧ ioCount (fetch_sensor_id s) = k + 1 := by
  have htr := scanLoop_transport s.probe s.cancel hc k 255 0 m hk
    (fun j hj => by simpa using hbelow j hj)
    (by simpa using hos)
  constructor
  · rw [fetch_sensor_id, if_pos ⟨hct, hsp⟩]
    simp only [evsOf_readHandle]
    rw [htr.1]
    simp only [Nat.zero_add]
  · rw [fetch_sensor_id, if_pos ⟨hct, hsp⟩]
    simp only [ioCount_readHandle]
    exact htr.2

/-- C7 witness: transport failure on the probe of address 2. -/
theorem scan_transport_fatal_protocol_continue_witness :
    evsOf (fetch_sensor_id busTransportAt2) =
      ((List.range 3).map fun i => Ev.fetching_slave_id (some i))
        ++ [Ev.slave_id_fetch_cancelled]
    ∧ ioCount (fetch_sensor_id busTransportAt2) = 3 :=
  scan_transport_fatal_protocol_continue busTransportAt2 2 1 rfl rfl
    (fun _ => rfl) (by omega)
    (fun j hj => by
      show (if j = 2 then ProbeRes.os 1 else ProbeRes.ok (-1)) = ProbeRes.ok (-1)
      rw [if_neg (by omega)])
    rfl

/-! ## C8 -/

/-- A bus with no device whose cancel flag becomes set at checkpoint 2. -/
def busCancelAt2 : ScanSc :=
  { client_top := true, sensor_present := true,
    probe := fun _ => ProbeRes.ok (-1), cancel := fun i => decide (2 ≤ i) }

/-- A bus whose cancel flag is already set at the first checkpoint. -/
def busCancelAt0 : ScanSc :=
  { client_top := true, sensor_present := true,
    probe := fun _ => ProbeRes.ok (-1), cancel := fun _ => true }

/-- A register test-loop iteration whose cancel flag is observed right
after the blocking read succeeded. -/
def iterCancelAfterRead : TestIter :=
  { cancel_top := false, client_snap := true, sensor_snap := true,
    slave_snap := some 1, read := ReadRes.ok 7, cancel_after_read := true }

/-- C8: after a worker observes its cancel flag at a checkpoint it emits no
further progress or success events: (1) with a monotone flag set at
checkpoint k, every Scanning event of the scan carries an address below k;
(2) the cancelled event, once emitted by the scan, is the last event;
(3) a flag already set at the first checkpoint yields the cancelled event
alone; (4) a test-loop iteration that observes the flag after a successful
blocking read emits the cancelled event and never the stale success. -/
theorem cancel_observed_no_further_progress :
    (∀ s : ScanSc, ∀ k j,
      (∀ p q, p ≤ q → s.cancel p = true → s.cancel q = true) →
      s.cancel k = true →
      Ev.fetching_slave_id (some j) ∈ evsOf (fetch_sensor_id s) → j < k)
    ∧ (∀ s : ScanSc, ∀ l1 l2, evsOf (fetch_sensor_id s) =
        l1 ++ Ev.slave_id_fetch_cancelled :: l2 → l2 = [])
    ∧ (∀ s : ScanSc, s.client_top = true → s.sensor_present = true →
        s.cancel 0 = true →
        evsOf (fetch_sensor_id s) = [Ev.slave_id_fetch_cancelled])
    ∧ (∀ it : TestIter, ∀ d, it.read = ReadRes.ok d →
        it.cancel_after_read = true → it.cancel_top = false →
        it.client_snap = true → it.sensor_snap = true → it.slave_snap ≠ none →
        evsOf (test_iter it).1 = [Ev.sensor_test_cancelled]
        ∧ Ev.sensor_test_success d ∉ evsOf (test_iter it).1) := by
  refine ⟨?_, ?_, ?_, ?_⟩
  · intro s k j hmono hk hmem
    by_cases hg : s.client_top ∧ s.sensor_present
    · rw [fetch_sensor_id, if_pos hg] at hmem
      simp only [evsOf_readHandle] at hmem
      have hj := scanLoop_scanning_cancel_false s.probe s.cancel 255 0 j hmem
      by_contra hlt
      push_neg at hlt
      have hcj := hmono k j hlt hk
      rw [hj] at hcj
      exact absurd hcj (by simp)
    · rw [fetch_sensor_id, if_neg hg] at hmem
      simp [evsOf] at hmem
  · intro s l1 l2 h
    by_cases hg : s.client_top ∧ s.sensor_present
    · rw [fetch_sensor_id, if_pos hg] at h
      simp only [evsOf_readHandle] at h
      exact scanLoop_cancelled_last s.probe s.cancel 255 0 l1 l2 h
    · rw [fetch_sensor_id, if_neg hg] at h
      simp only [evsOf] at h
      rcases l1 with _ | ⟨x, t⟩ <;> simp_all
  · intro s hct hsp hc0
    rw [fetch_sensor_id, if_pos ⟨hct, hsp⟩]
    rw [show (255 : Nat) = 254 + 1 from rfl]
    rw [scanLoop_cancelled s.probe s.cancel 254 0 hc0]
    rfl
  · intro it d hrd hcar hct hcs hss hsl
    rcases it with ⟨ct, cs, ss, sl, rd, car⟩
    dsimp only at hrd hcar hct hcs hss hsl
    subst hrd hcar hct hcs hss
    rcases sl with _ | x
    · exact absurd rfl hsl
    · refine ⟨rfl, ?_⟩
      show Ev.sensor_test_success d ∉ [Ev.sensor_test_cancelled]
      simp

/-- C8 witness: parts of the theorem applied at concrete scenarios, all
hypotheses discharged there. -/
theorem cancel_observed_no_further_progress_witness :
    (0 : Nat) < 2
    ∧ evsOf (fetch_sensor_id busCancelAt0) = [Ev.slave_id_fetch_cancelled]
    ∧ (evsOf (test_iter iterCancelAfterRead).1 = [Ev.sensor_test_cancelled]
       ∧ Ev.sensor_test_success 7 ∉ evsOf (test_iter iterCancelAfterRead).1) := by
  refine ⟨?_, ?_, ?_⟩
  · exact cancel_observed_no_further_progress.1 busCancelAt2 2 0
      (fun p q hpq hp => by
        simp only [busCancelAt2, decide_eq_true_eq] at hp ⊢
        omega)
      (by decide) (by decide)
  · exact cancel_observed_no_further_progress.2.2.1 busCancelAt0 rfl rfl rfl
  · exact cancel_observed_no_further_progress.2.2.2 iterCancelAfterRead 7
      rfl rfl rfl rfl rfl (by decide)

/-! ## C10 -/

/-- C10: with the restart_missing flag set and no current address recorded,
a discovery run emits the reboot_required event alone and performs zero
driver I/O calls: the reboot gate is evaluated after the (here skipped)
verification, unconditionally, and no scan occurs. -/
theorem reboot_gate_without_current_address (v : VerifySc) (s : ScanSc) :
    evsOf (fetch_slave_id_thread none true v s) = [Ev.reboot_required]
    ∧ ioCount (fetch_slave_id_thread none true v s) = 0 :=
  ⟨rfl, rfl⟩

/-! ## C6 -/

/-- Verification state: the recorded address 9 still answers. -/
def verifyOk9 : VerifySc :=
  { cancel_pre := false, client_top := true, sensor_present := true,
    slave_id := some 9, client_locked := true, cancel_locked := false,
    read := ReadRes.ok 4 }

/-- Verification state: the recorded address 9 answers with a protocol
error. -/
def verifyBad9 : VerifySc :=
  { cancel_pre := false, client_top := true, sensor_present := true,
    slave_id := some 9, client_locked := true, cancel_locked := false,
    read := ReadRes.modbus 4 }

/-- C6: with a recorded current address the discovery worker performs
exactly one verification read first; on success it emits the valid events
and terminates with zero Scanning events; on protocol-level failure with
restart_missing set it emits the invalid event then reboot_required and
terminates without probing any address. -/
theorem verify_current_address_first (a : Int) (restart : Bool)
    (v : VerifySc) (s : ScanSc)
    (h1 : v.cancel_pre = false) (h2 : v.client_top = true)
    (h3 : v.sensor_present = true) (h4 : v.slave_id = some a)
    (h5 : v.client_locked = true) (h6 : v.cancel_locked = false) :
    (∀ d, v.read = ReadRes.ok d →
      evsOf (fetch_slave_id_thread (some a) restart v s) =
        [Ev.verifying_current_id a, Ev.slave_id_valid a, Ev.current_id_valid a]
      ∧ ioCount (fetch_slave_id_thread (some a) restart v s) = 1)
    ∧ (∀ m, v.read = ReadRes.modbus m → restart = true →
      evsOf (fetch_slave_id_thread (some a) restart v s) =
        [Ev.verifying_current_id a, Ev.slave_id_invalid a, Ev.reboot_required]
      ∧ ioCount (fetch_slave_id_thread (some a) restart v s) = 1) := by
  rcases v with ⟨cp, ct, sp, sl, cl, cln, rd⟩
  dsimp only at h1 h2 h3 h4 h5 h6
  subst h1 h2 h3 h4 h5 h6
  constructor
  · intro d hd
    dsimp only at hd
    subst hd
    exact ⟨rfl, rfl⟩
  · intro m hm hr
    dsimp only at hm
    subst hm hr
    exact ⟨rfl, rfl⟩

/-- C6 witness: both short-circuits evaluated on concrete states. -/
theorem verify_current_address_first_witness :
    (evsOf (fetch_slave_id_thread (some 9) false verifyOk9 busNoDevice) =
        [Ev.verifying_current_id 9, Ev.slave_id_valid 9, Ev.current_id_valid 9]
      ∧ ioCount (fetch_slave_id_thread (some 9) false verifyOk9 busNoDevice) = 1)
    ∧ (evsOf (fetch_slave_id_thread (some 9) true verifyBad9 busNoDevice) =
        [Ev.verifying_current_id 9, Ev.slave_id_invalid 9, Ev.reboot_required]
      ∧ ioCount (fetch_slave_id_thread (some 9) true verifyBad9 busNoDevice) = 1) :=
  ⟨(verify_current_address_first 9 false verifyOk9 busNoDevice
      rfl rfl rfl rfl rfl rfl).1 4 rfl,
   (verify_current_address_first 9 true verifyBad9 busNoDevice
      rfl rfl rfl rfl rfl rfl).2 4 rfl rfl⟩

/-! ## C9 -/

/-- Verification state that lost the race with disconnect: the handle is
already `None` under the lock. -/
def verifyRace5 : VerifySc :=
  { cancel_pre := false, client_top := true, sensor_present := true,
    slave_id := some 5, client_locked := false, cancel_locked := false,
    read := ReadRes.ok 0 }

/-- Scan state after disconnect cleared the handle. -/
def busHandleGone : ScanSc :=
  { client_top := false, sensor_present := true,
    probe := fun _ => ProbeRes.ok (-1), cancel := fun _ => false }

/-- C9 counterexample: a discovery worker that finds the handle cleared
under the lock during verification emits the slave_id_invalid event — the
same user-visible event as a failed verification —, emits no
cancellation-style event at all, and proceeds to the scan phase instead of
terminating with a cancellation outcome. -/
theorem handle_gone_not_treated_as_cancellation :
    evsOf (fetch_slave_id_thread (some 5) false verifyRace5 busHandleGone) =
      [Ev.verifying_current_id 5, Ev.slave_id_invalid 5,
       Ev.fetching_slave_id none]
    ∧ Ev.slave_id_fetch_cancelled ∉
        evsOf (fetch_slave_id_thread (some 5) false verifyRace5 busHandleGone)
    ∧ Ev.sensor_test_cancelled ∉
        evsOf (fetch_slave_id_thread (some 5) false verifyRace5 busHandleGone) := by
  decide

/-- C9 amended: in the test loops a handle observed as `None` in the locked
snapshot does terminate the worker with the cancelled event; in
current-address verification a handle observed as `None` under the lock is
instead reported as slave_id_invalid — exactly as a failed verification —
and the discovery worker falls through to the scan phase, which returns
silently with no events when the handle is gone; no path escalates the
condition as a fatal error. -/
theorem handle_gone_outcomes :
    (∀ it : TestIter, it.cancel_top = false → it.client_snap = false →
      evsOf (test_iter it).1 = [Ev.sensor_test_cancelled]
      ∧ (test_iter it).2 = IterOut.stop)
    ∧ (∀ it : TestIterSdi, it.cancel_top = false → it.client_snap = false →
      evsOf (test_iter_sdi12 it).1 = [Ev.sensor_test_cancelled]
      ∧ (test_iter_sdi12 it).2 = IterOut.stop)
    ∧ (∀ a : Int, ∀ v : VerifySc, v.cancel_pre = false → v.client_top = true →
      v.sensor_present = true → v.slave_id = some a → v.client_locked = false →
      evsOf (test_current_id v).1 = [Ev.slave_id_invalid a]
      ∧ (test_current_id v).2 = some false)
    ∧ (∀ s : ScanSc, s.client_top = false → evsOf (fetch_sensor_id s) = []) := by
  refine ⟨?_, ?_, ?_, ?_⟩
  · intro it hct hcs
    rcases it with ⟨ct, cs, ss, sl, rd, car⟩
    dsimp only at hct hcs
    subst hct hcs
    exact ⟨rfl, rfl⟩
  · intro it hct hcs
    rcases it with ⟨ct, cs, ss, sl, rq, carq, rd, car⟩
    dsimp only at hct hcs
    subst hct hcs
    exact ⟨rfl, rfl⟩
  · intro a v h1 h2 h3 h4 h5
    rcases v with ⟨cp, ct, sp, sl, cl, cln, rd⟩
    dsimp only at h1 h2 h3 h4 h5
    subst h1 h2 h3 h4 h5
    exact ⟨rfl, rfl⟩
  · intro s hct
    rw [fetch_sensor_id, if_neg (by simp [hct])]
    rfl

/-- C9 witness: the amended behaviours evaluated at concrete states. -/
theorem handle_gone_outcomes_witness :
    (evsOf (test_iter
        { cancel_top := false, client_snap := false, sensor_snap := true,
          slave_snap := some 1, read := ReadRes.ok 0,
          cancel_after_read := false }).1 = [Ev.sensor_test_cancelled])
    ∧ evsOf (test_current_id verifyRace5).1 = [Ev.slave_id_invalid 5]
    ∧ evsOf (fetch_sensor_id busHandleGone) = [] := by
  refine ⟨?_, ?_, ?_⟩
  · exact (handle_gone_outcomes.1 _ rfl rfl).1
  · exact (handle_gone_outcomes.2.2.1 5 verifyRace5 rfl rfl rfl rfl rfl).1
  · exact handle_gone_outcomes.2.2.2 busHandleGone rfl

/-! ## C3 -/

/-- C3 counterexample: the verification read and the scan probe both
execute their driver I/O while holding the handle lock, and the
verification critical section contains more than handle reads/clears. -/
theorem io_under_lock_in_scan_and_verify :
    ioWhileLocked (test_current_id verifyOk9).1 = true
    ∧ ioWhileLocked (fetch_sensor_id busDeviceAt3) = true
    ∧ lockedOnlyHandleOps (test_current_id verifyOk9).1 = false := by
  decide

/-- C3 amended: the narrow-lock policy holds for the two test read loops
(the locked snapshot only reads the handle fields and the blocking read
runs outside the lock), but not for current-address verification nor for
the per-address scan probes, whose driver I/O executes while the lock is
held. -/
theorem lock_discipline_by_operation :
    (∀ it : TestIter, ioWhileLocked (test_iter it).1 = false
      ∧ lockedOnlyHandleOps (test_iter it).1 = true)
    ∧ (∀ it : TestIterSdi, ioWhileLocked (test_iter_sdi12 it).1 = false
      ∧ lockedOnlyHandleOps (test_iter_sdi12 it).1 = true)
    ∧ (∀ v : VerifySc, v.cancel_pre = false → v.client_top = true →
      v.sensor_present = true → v.slave_id ≠ none → v.client_locked = true →
      v.cancel_locked = false → ioWhileLocked (test_current_id v).1 = true)
    ∧ (∀ s : ScanSc, s.client_top = true → s.sensor_present = true →
      s.cancel 0 = false → ioWhileLocked (fetch_sensor_id s) = true) := by
  refine ⟨?_, ?_, ?_, ?_⟩
  · intro it
    rcases it with ⟨ct, cs, ss, sl, rd, car⟩
    cases ct <;> cases cs <;> cases ss <;> rcases sl with _ | x <;>
      rcases rd with d | m | m <;> cases car <;> exact ⟨rfl, rfl⟩
  · intro it
    rcases it with ⟨ct, cs, ss, sl, rq, carq, rd, car⟩
    cases ct <;> cases cs <;> cases ss <;> rcases sl with _ | x <;>
      rcases rq with _ | m2 <;> cases carq <;> rcases rd with d | m | m <;>
      cases car <;> exact ⟨rfl, rfl⟩
  · intro v h1 h2 h3 hsl h5 h6
    rcases v with ⟨cp, ct, sp, sl, cl, cln, rd⟩
    dsimp only at h1 h2 h3 hsl h5 h6
    subst h1 h2 h3 h5 h6
    rcases sl with _ | a
    · exact absurd rfl hsl
    · rcases rd with d | m | m <;> rfl
  · intro s hct hsp hc0
    rw [fetch_sensor_id, if_pos ⟨hct, hsp⟩]
    rw [show (255 : Nat) = 254 + 1 from rfl]
    rcases hp : s.probe 0 with r | m
    · by_cases hr : r = -1
      · rw [scanLoop_miss s.probe s.cancel 254 0 hc0 (by rw [hp, hr])]
        simp [ioWhileLocked, depthAnnotate]
      · rw [scanLoop_hit s.probe s.cancel 254 0 r hc0 hp hr]
        rfl
    · rw [scanLoop_os s.probe s.cancel 254 0 m hc0 hp]
      rfl

/-- C3 witness: the amended policy evaluated at concrete states. -/
theorem lock_discipline_by_operation_witness :
    (ioWhileLocked (test_iter iterCancelAfterRead).1 = false
      ∧ lockedOnlyHandleOps (test_iter iterCancelAfterRead).1 = true)
    ∧ ioWhileLocked (test_current_id verifyBad9).1 = true
    ∧ ioWhileLocked (fetch_sensor_id busDeviceAt3) = true := by
  refine ⟨lock_discipline_by_operation.1 iterCancelAfterRead, ?_, ?_⟩
  · exact lock_discipline_by_operation.2.2.1 verifyBad9 rfl rfl rfl
      (by decide) rfl rfl
  · exact lock_discipline_by_operation.2.2.2 busDeviceAt3 rfl rfl rfl

/-! ## C4 -/

/-- A register-poll iteration whose blocking read raises an OS-level
error. -/
def iterOsError : TestIter :=
  { cancel_top := false, client_snap := true, sensor_snap := true,
    slave_snap := some 1, read := ReadRes.os 3, cancel_after_read := false }

/-- C4 counterexample: in the register-poll variant an OS-level error in
the read sub-step is not caught (`except ModbusException` only) and
propagates past the loop boundary; the claim says any exception in either
variant is caught and reported as a test failure. -/
theorem register_loop_os_error_escapes :
    (test_sensor_thread true true (fun _ => iterOsError) 5).2 = IterOut.raise
    ∧ Step.raiseEsc ∈ (test_sensor_thread true true (fun _ => iterOsError) 5).1 := by
  decide

/-- C4 amended: the ascii variant catches every exception from either
sub-step (nothing escapes its loop); the register variant catches the
protocol-level `ModbusException` only. In both variants a caught error with
the cancel flag unset is reported as a test failure and the loop continues,
and a caught error with the cancel flag set yields the cancelled event and
stops; an OS-level read error in the register variant escapes the loop. -/
theorem test_loop_exception_handling :
    (∀ it : TestIterSdi, (test_iter_sdi12 it).2 ≠ IterOut.raise)
    ∧ (∀ it : TestIter, ∀ m, it.cancel_top = false → it.client_snap = true →
      it.sensor_snap = true → it.slave_snap ≠ none →
      it.read = ReadRes.modbus m → it.cancel_after_read = false →
      (test_iter it).2 = IterOut.cont
      ∧ evsOf (test_iter it).1 = [Ev.sensor_test_failure m])
    ∧ (∀ it : TestIterSdi, ∀ m, it.cancel_top = false → it.client_snap = true →
      it.sensor_snap = true → it.slave_snap ≠ none → it.request = none →
      it.cancel_after_request = false →
      (it.read = ReadRes.modbus m ∨ it.read = ReadRes.os m) →
      it.cancel_after_read = false →
      (test_iter_sdi12 it).2 = IterOut.cont
      ∧ evsOf (test_iter_sdi12 it).1 = [Ev.sensor_test_failure m])
    ∧ (∀ it : TestIterSdi, ∀ m, it.cancel_top = false → it.client_snap = true →
      it.sensor_snap = true → it.slave_snap ≠ none → it.request = some m →
      it.cancel_after_read = false →
      (test_iter_sdi12 it).2 = IterOut.cont
      ∧ evsOf (test_iter_sdi12 it).1 = [Ev.sensor_test_failure m])
    ∧ (∀ it : TestIter, ∀ m, it.cancel_top = false → it.client_snap = true →
      it.sensor_snap = true → it.slave_snap ≠ none →
      it.read = ReadRes.modbus m → it.cancel_after_read = true →
      (test_iter it).2 = IterOut.stop
      ∧ evsOf (test_iter it).1 = [Ev.sensor_test_cancelled]) := by
  refine ⟨?_, ?_, ?_, ?_, ?_⟩
  · intro it
    rcases it with ⟨ct, cs, ss, sl, rq, carq, rd, car⟩
    cases ct <;> cases cs <;> cases ss <;> rcases sl with _ | x <;>
      rcases rq with _ | m2 <;> cases carq <;> rcases rd with d | m | m <;>
      cases car <;> exact fun h => nomatch h
  · intro it m hct hcs hss hsl hrd hcar
    rcases it with ⟨ct, cs, ss, sl, rd, car⟩
    dsimp only at hct hcs hss hsl hrd hcar
    subst hct hcs hss hrd hcar
    rcases sl with _ | x
    · exact absurd rfl hsl
    · exact ⟨rfl, rfl⟩
  · intro it m hct hcs hss hsl hrq hcarq hrd hcar
    rcases it with ⟨ct, cs, ss, sl, rq, carq, rd, car⟩
    dsimp only at hct hcs hss hsl hrq hcarq hrd hcar
    subst hct hcs hss hrq hcarq hcar
    rcases sl with _ | x
    · exact absurd rfl hsl
    · rcases hrd with h | h <;> (subst h; exact ⟨rfl, rfl⟩)
  · intro it m hct hcs hss hsl hrq hcar
    rcases it with ⟨ct, cs, ss, sl, rq, carq, rd, car⟩
    dsimp only at hct hcs hss hsl hrq hcar
    subst hct hcs hss hrq hcar
    rcases sl with _ | x
    · exact absurd rfl hsl
    · exact ⟨rfl, rfl⟩
  · intro it m hct hcs hss hsl hrd hcar
    rcases it with ⟨ct, cs, ss, sl, rd, car⟩
    dsimp only at hct hcs hss hsl hrd hcar
    subst hct hcs hss hrd hcar
    rcases sl with _ | x
    · exact absurd rfl hsl
    · exact ⟨rfl, rfl⟩

/-- A register-poll iteration whose read raises a protocol error, flag
unset. -/
def iterModbusFail : TestIter :=
  { cancel_top := false, client_snap := true, sensor_snap := true,
    slave_snap := some 1, read := ReadRes.modbus 3, cancel_after_read := false }

/-- An ascii iteration whose read raises an OS-level error, flag unset. -/
def iterSdiOsFail : TestIterSdi :=
  { cancel_top := false, client_snap := true, sensor_snap := true,
    slave_snap := some 1, request := none, cancel_after_request := false,
    read := ReadRes.os 3, cancel_after_read := false }

/-- An ascii iteration whose measurement request raises, flag unset. -/
def iterSdiReqFail : TestIterSdi :=
  { cancel_top := false, client_snap := true, sensor_snap := true,
    slave_snap := some 1, request := some 6, cancel_after_request := false,
    read := ReadRes.ok 0, cancel_after_read := false }

/-- A register-poll iteration whose read raises a protocol error with the
cancel flag already set. -/
def iterModbusCancel : TestIter :=
  { cancel_top := false, client_snap := true, sensor_snap := true,
    slave_snap := some 1, read := ReadRes.modbus 3, cancel_after_read := true }

/-- C4 witness: the amended behaviours evaluated at concrete iterations. -/
theorem test_loop_exception_handling_witness :
    ((test_iter iterModbusFail).2 = IterOut.cont
      ∧ evsOf (test_iter iterModbusFail).1 = [Ev.sensor_test_failure 3])
    ∧ ((test_iter_sdi12 iterSdiOsFail).2 = IterOut.cont
      ∧ evsOf (test_iter_sdi12 iterSdiOsFail).1 = [Ev.sensor_test_failure 3])
    ∧ ((test_iter_sdi12 iterSdiReqFail).2 = IterOut.cont
      ∧ evsOf (test_iter_sdi12 iterSdiReqFail).1 = [Ev.sensor_test_failure 6])
    ∧ ((test_iter iterModbusCancel).2 = IterOut.stop
      ∧ evsOf (test_iter iterModbusCancel).1 = [Ev.sensor_test_cancelled]) := by
  refine ⟨?_, ?_, ?_, ?_⟩
  · exact test_loop_exception_handling.2.1 iterModbusFail 3 rfl rfl rfl
      (by decide) rfl rfl
  · exact test_loop_exception_handling.2.2.1 iterSdiOsFail 3 rfl rfl rfl
      (by decide) rfl rfl (Or.inr rfl) rfl
  · exact test_loop_exception_handling.2.2.2.1 iterSdiReqFail 6 rfl rfl rfl
      (by decide) rfl rfl
  · exact test_loop_exception_handling.2.2.2.2 iterModbusCancel 3 rfl rfl rfl
      (by decide) rfl rfl

/-! ## C5 -/

/-- C5: `disconnect_modbus_client` sets both cancel flags as its first two
steps (before either join), bounds every join by a 2 time-unit timeout, a
timed-out join only logs a warning while teardown proceeds to clear the
handle, the handle is cleared strictly before the physical close and both
happen under the lock, a close error is logged and swallowed, and nothing
escapes the function. -/
theorem disconnect_sequence_and_teardown (sc : DisconnectSc) :
    (disconnect_modbus_client sc).take 2 =
      [Step.setCancelFetch, Step.setCancelTest]
    ∧ joinsBoundedBy2 (disconnect_modbus_client sc) = true
    ∧ Step.clearHandle ∈ disconnect_modbus_client sc
    ∧ (sc.fetch_alive = true → sc.fetch_timeout = true →
        Step.warn ∈ disconnect_modbus_client sc)
    ∧ (sc.test_some = true → sc.test_alive = true → sc.test_timeout = true →
        Step.warn ∈ disconnect_modbus_client sc)
    ∧ closeBeforeClear (disconnect_modbus_client sc) = false
    ∧ clearAndCloseLocked (disconnect_modbus_client sc) = true
    ∧ (sc.client_present = true → sc.close_ok = false →
        Step.closeCall false ∈ disconnect_modbus_client sc
        ∧ Step.warn ∈ disconnect_modbus_client sc)
    ∧ Step.raiseEsc ∉ disconnect_modbus_client sc := by
  rcases sc with ⟨a, b, c, d, e, f, g⟩
  cases a <;> cases b <;> cases c <;> cases d <;> cases e <;> cases f <;>
    cases g <;> decide

/-- A disconnect run with both workers alive and timing out and a failing
physical close. -/
def disconnectWorst : DisconnectSc :=
  { fetch_alive := true, fetch_timeout := true, test_some := true,
    test_alive := true, test_timeout := true, client_present := true,
    close_ok := false }

/-- C5 witness: the sequence properties at the worst-case concrete run. -/
theorem disconnect_sequence_and_teardown_witness :
    Step.warn ∈ disconnect_modbus_client disconnectWorst
    ∧ Step.closeCall false ∈ disconnect_modbus_client disconnectWorst
    ∧ Step.raiseEsc ∉ disconnect_modbus_client disconnectWorst := by
  obtain ⟨h1, h2, h3, h4, h5, h6, h7, h8, h9⟩ :=
    disconnect_sequence_and_teardown disconnectWorst
  exact ⟨h4 rfl rfl, (h8 rfl rfl).1, h9⟩

end SensorApp
